import Mathlib

/-!
Verification development for the remote-desktop relay hub
(`muma.py` / `muma2.0.py`): connection registry, role-based
broadcast relay, frame cache and message dispatch, embedded as
pure functions over an explicit server state.

Connections are modelled by their stable identity (a natural number);
the transport is modelled by a predicate `sendOk : Conn → Bool` telling
which connections a send succeeds to during one operation.  Handlers
return the new state together with the list of attempted sends and the
list of `unregister_client` calls they made.
-/

/-- Identity of a websocket connection (stable, unique key). -/
abbrev Conn := Nat

/-- The `screen_info` dictionary of `RemoteDesktopServer.__init__`. -/
structure ScreenInfo where
  width : Nat
  height : Nat
  original_width : Nat
  original_height : Nat
deriving DecidableEq

/-- Fields of an inbound `screen_data` message; every field is optional
because the handler reads them with `data.get(key, default)`. -/
structure ScreenDataMsg where
  data : Option String
  width : Option Nat
  height : Option Nat
  original_width : Option Nat
  original_height : Option Nat
deriving DecidableEq

/-- The cached `current_screen_data` dictionary built by
`handle_screen_data` (a `screenshot` record with timestamp). -/
structure ScreenRecord where
  data : Option String
  width : Nat
  height : Nat
  original_width : Nat
  original_height : Nat
  timestamp : Nat
deriving DecidableEq

/-- The two control-event message types relayed to providers. -/
inductive CtrlKind
  | mouse
  | keyboard
deriving DecidableEq

/-- Decoded inbound messages, discriminated by their `type` field.
`register` carries the optional `client_type` field; `control` carries
the rest of a mouse/keyboard message as an opaque payload; `unknown`
stands for any unrecognized `type`. -/
inductive InMsg
  | register (client_type : Option String)
  | screen_data (m : ScreenDataMsg)
  | control (kind : CtrlKind) (payload : String)
  | get_screenshot
  | ping
  | unknown
deriving DecidableEq

/-- Messages the server sends out. `control` is the relayed raw
mouse/keyboard payload. -/
inductive OutMsg
  | register_ack (client_type : String) (screen_info : ScreenInfo)
  | screenshot (r : ScreenRecord)
  | control (kind : CtrlKind) (payload : String)
  | error (message : String)
  | pong
deriving DecidableEq

/-- The mutable state of `RemoteDesktopServer`: the all-connections set,
the three role sets, the cached frame and the screen info. -/
structure ServerState where
  clients : Finset Conn
  screen_providers : Finset Conn
  screen_viewers : Finset Conn
  control_clients : Finset Conn
  current_screen_data : Option ScreenRecord
  screen_info : ScreenInfo
deriving DecidableEq

/-- Result of one handler call: the new state, the attempted sends in
order, and the `unregister_client` calls made (in order). -/
structure DispatchResult where
  state : ServerState
  sends : List (Conn × OutMsg)
  unregs : List Conn
deriving DecidableEq

/-- State of a freshly constructed `RemoteDesktopServer`. -/
def initState : ServerState :=
  { clients := ∅
    screen_providers := ∅
    screen_viewers := ∅
    control_clients := ∅
    current_screen_data := none
    screen_info := ⟨0, 0, 0, 0⟩ }

/-- `register_client`: add to the all-connections set, then to exactly
one role set chosen by the `client_type` string (anything other than
`provider`/`controller` falls to the viewer set); if the new client is a
viewer (literal string `viewer`) and a cached frame exists, it is sent
immediately. -/
def register_client (s : ServerState) (ws : Conn) (client_type : String) :
    DispatchResult :=
  let s1 : ServerState := { s with clients := insert ws s.clients }
  let s2 : ServerState :=
    if client_type = "provider" then
      { s1 with screen_providers := insert ws s1.screen_providers }
    else if client_type = "controller" then
      { s1 with control_clients := insert ws s1.control_clients }
    else
      { s1 with screen_viewers := insert ws s1.screen_viewers }
  { state := s2
    sends :=
      if client_type = "viewer" then
        match s2.current_screen_data with
        | some r => [(ws, OutMsg.screenshot r)]
        | none => []
      else []
    unregs := [] }

/-- `unregister_client`: discard the connection from the all-connections
set and from every role set. -/
def unregister_client (s : ServerState) (ws : Conn) : ServerState :=
  { s with
    clients := s.clients.erase ws
    screen_providers := s.screen_providers.erase ws
    screen_viewers := s.screen_viewers.erase ws
    control_clients := s.control_clients.erase ws }

/-- The broadcast loop shared by `handle_screen_data` /
`handle_control_event` (and by `_broadcast_to_viewers` /
`_broadcast_to_providers` in the second revision): attempt a send to
every target, collect the targets whose send failed, then call
`unregister_client` on each failed target.  Set iteration order is
modelled deterministically by sorting the connection identities. -/
def broadcast (s : ServerState) (targets : Finset Conn) (payload : OutMsg)
    (sendOk : Conn → Bool) : DispatchResult :=
  let disconnected := targets.filter (fun c => sendOk c = false)
  { state := (disconnected.sort (· ≤ ·)).foldl unregister_client s
    sends := (targets.sort (· ≤ ·)).map (fun c => (c, payload))
    unregs := disconnected.sort (· ≤ ·) }

/-- The `screenshot` record `handle_screen_data` builds from an inbound
`screen_data` message at time `t` (missing fields default to `0`/none,
with no validation). -/
def mkScreenshot (m : ScreenDataMsg) (t : Nat) : ScreenRecord :=
  { data := m.data
    width := m.width.getD 0
    height := m.height.getD 0
    original_width := m.original_width.getD 0
    original_height := m.original_height.getD 0
    timestamp := t }

/-- The frame-cache update portion of `handle_screen_data`: overwrite
`current_screen_data` with the new record and `screen_info` with the
declared dimensions, unconditionally. -/
def update_frame (s : ServerState) (m : ScreenDataMsg) (t : Nat) :
    ServerState :=
  { s with
    current_screen_data := some (mkScreenshot m t)
    screen_info :=
      { width := m.width.getD 0
        height := m.height.getD 0
        original_width := m.original_width.getD 0
        original_height := m.original_height.getD 0 } }

/-- `handle_screen_data`: update the frame cache, then, when the viewer
set is nonempty, broadcast the new screenshot record to the viewers. -/
def handle_screen_data (s : ServerState) (m : ScreenDataMsg) (t : Nat)
    (sendOk : Conn → Bool) : DispatchResult :=
  let s1 := update_frame s m t
  if s1.screen_viewers = ∅ then ⟨s1, [], []⟩
  else broadcast s1 s1.screen_viewers (OutMsg.screenshot (mkScreenshot m t)) sendOk

/-- `handle_control_event`: when the provider set is nonempty, relay the
raw mouse/keyboard payload to every screen provider. -/
def handle_control_event (s : ServerState) (kind : CtrlKind)
    (payload : String) (sendOk : Conn → Bool) : DispatchResult :=
  if s.screen_providers = ∅ then ⟨s, [], []⟩
  else broadcast s s.screen_providers (OutMsg.control kind payload) sendOk

/-- `handle_client_message`: dispatch a decoded inbound message by its
`type` field.  `register` registers with default `client_type` of
`viewer` and acknowledges with the declared string and the current
screen info; `get_screenshot` answers with the cached record, or with an
error record when none exists; `ping` answers `pong`; unknown types are
dropped. -/
def handle_client_message (s : ServerState) (ws : Conn) (m : InMsg)
    (t : Nat) (sendOk : Conn → Bool) : DispatchResult :=
  match m with
  | InMsg.register ct =>
      let client_type := ct.getD "viewer"
      let r := register_client s ws client_type
      { r with
        sends := r.sends ++
          [(ws, OutMsg.register_ack client_type r.state.screen_info)] }
  | InMsg.screen_data sd => handle_screen_data s sd t sendOk
  | InMsg.control kind payload => handle_control_event s kind payload sendOk
  | InMsg.get_screenshot =>
      match s.current_screen_data with
      | some r => ⟨s, [(ws, OutMsg.screenshot r)], []⟩
      | none => ⟨s, [(ws, OutMsg.error "当前没有可用的屏幕数据")], []⟩
  | InMsg.ping => ⟨s, [(ws, OutMsg.pong)], []⟩
  | InMsg.unknown => ⟨s, [], []⟩

/-- The first action of `handle_client` on a newly accepted connection:
`register_client` with its default `client_type` of `viewer`. -/
def accept_client (s : ServerState) (ws : Conn) : DispatchResult :=
  register_client s ws "viewer"

/-- `get_server_status`, the snapshot read by the HTTP status page. -/
structure ServerStatus where
  total_clients : Nat
  screen_providers : Nat
  screen_viewers : Nat
  control_clients : Nat
  has_screen_data : Bool
  screen_info : ScreenInfo
deriving DecidableEq

/-- `get_server_status`: point-in-time counters over the registry. -/
def get_server_status (s : ServerState) : ServerStatus :=
  { total_clients := s.clients.card
    screen_providers := s.screen_providers.card
    screen_viewers := s.screen_viewers.card
    control_clients := s.control_clients.card
    has_screen_data := s.current_screen_data.isSome
    screen_info := s.screen_info }

/-- One registry-mutating operation of the server: a direct
`register_client` call, a direct `unregister_client` call (read-loop
termination), or the dispatch of one inbound message. -/
inductive Op
  | register (ws : Conn) (client_type : String)
  | unregister (ws : Conn)
  | dispatch (sender : Conn) (m : InMsg) (t : Nat) (sendOk : Conn → Bool)

/-- State transition of one operation. -/
def applyOp (s : ServerState) (op : Op) : ServerState :=
  match op with
  | Op.register ws ct => (register_client s ws ct).state
  | Op.unregister ws => unregister_client s ws
  | Op.dispatch sender m t sendOk =>
      (handle_client_message s sender m t sendOk).state

/-- State after a sequence of operations. -/
def applyOps (s : ServerState) (l : List Op) : ServerState :=
  l.foldl applyOp s

/-- The three role sets are pairwise disjoint. -/
def RoleDisjoint (s : ServerState) : Prop :=
  s.screen_providers ∩ s.screen_viewers = ∅ ∧
  s.screen_providers ∩ s.control_clients = ∅ ∧
  s.screen_viewers ∩ s.control_clients = ∅

/-- Every role set is contained in the all-connections set. -/
def RolesSubClients (s : ServerState) : Prop :=
  s.screen_providers ⊆ s.clients ∧
  s.screen_viewers ⊆ s.clients ∧
  s.control_clients ⊆ s.clients

/-- The registry invariant of the spec: at most one role per connection,
and role-set members are connections. -/
def RegistryInv (s : ServerState) : Prop :=
  RoleDisjoint s ∧ RolesSubClients s

/-- Side condition under which a `register_client` call keeps the role
sets disjoint: the connection is in neither of the two role sets other
than the one selected by `client_type`. -/
def registerOkFor (s : ServerState) (ws : Conn) (client_type : String) :
    Prop :=
  if client_type = "provider" then
    ws ∉ s.screen_viewers ∧ ws ∉ s.control_clients
  else if client_type = "controller" then
    ws ∉ s.screen_providers ∧ ws ∉ s.screen_viewers
  else
    ws ∉ s.screen_providers ∧ ws ∉ s.control_clients

/-- Side condition on an operation: registrations (direct or via a
`register` message) must not move an already role-assigned connection
into a different role set; all other operations are unrestricted. -/
def OpOk (s : ServerState) : Op → Prop
  | Op.register ws ct => registerOkFor s ws ct
  | Op.unregister _ => True
  | Op.dispatch sender m _ _ =>
      match m with
      | InMsg.register ct => registerOkFor s sender (ct.getD "viewer")
      | _ => True

instance (s : ServerState) : Decidable (RoleDisjoint s) := by
  unfold RoleDisjoint
  infer_instance

instance (s : ServerState) : Decidable (RolesSubClients s) := by
  unfold RolesSubClients
  infer_instance

instance (s : ServerState) : Decidable (RegistryInv s) := by
  unfold RegistryInv
  infer_instance

instance (s : ServerState) (ws : Conn) (ct : String) :
    Decidable (registerOkFor s ws ct) := by
  unfold registerOkFor
  infer_instance

instance (s : ServerState) (op : Op) : Decidable (OpOk s op) := by
  cases op with
  | register ws ct =>
    exact (inferInstance : Decidable (registerOkFor s ws ct))
  | unregister ws => exact (inferInstance : Decidable True)
  | dispatch sender m t sendOk =>
    cases m with
    | register ct =>
      exact (inferInstance : Decidable (registerOkFor s sender (ct.getD "viewer")))
    | screen_data sd => exact (inferInstance : Decidable True)
    | control kind payload => exact (inferInstance : Decidable True)
    | get_screenshot => exact (inferInstance : Decidable True)
    | ping => exact (inferInstance : Decidable True)
    | unknown => exact (inferInstance : Decidable True)

/-! Helper lemmas. -/

theorem inter_eq_empty_iff (A B : Finset Conn) :
    A ∩ B = ∅ ↔ ∀ c, c ∈ A → c ∉ B := by
  simp [Finset.eq_empty_iff_forall_not_mem]

theorem foldl_unregister_eq (l : List Conn) (s : ServerState) :
    l.foldl unregister_client s =
      { s with
        clients := s.clients \ l.toFinset
        screen_providers := s.screen_providers \ l.toFinset
        screen_viewers := s.screen_viewers \ l.toFinset
        control_clients := s.control_clients \ l.toFinset } := by
  induction l generalizing s with
  | nil => simp
  | cons x l ih =>
    rw [List.foldl_cons, ih]
    congr 1 <;>
      (ext c
       simp [unregister_client, Finset.mem_sdiff, Finset.mem_erase,
         List.toFinset_cons]
       tauto)

theorem broadcast_state (s : ServerState) (targets : Finset Conn)
    (payload : OutMsg) (sendOk : Conn → Bool) :
    (broadcast s targets payload sendOk).state =
      { s with
        clients := s.clients \ targets.filter (fun c => sendOk c = false)
        screen_providers :=
          s.screen_providers \ targets.filter (fun c => sendOk c = false)
        screen_viewers :=
          s.screen_viewers \ targets.filter (fun c => sendOk c = false)
        control_clients :=
          s.control_clients \ targets.filter (fun c => sendOk c = false) } := by
  simp only [broadcast]
  rw [foldl_unregister_eq]
  simp [Finset.sort_toFinset]

theorem register_client_state_def (s : ServerState) (ws : Conn) (ct : String) :
    (register_client s ws ct).state =
      if ct = "provider" then
        { s with
          clients := insert ws s.clients
          screen_providers := insert ws s.screen_providers }
      else if ct = "controller" then
        { s with
          clients := insert ws s.clients
          control_clients := insert ws s.control_clients }
      else
        { s with
          clients := insert ws s.clients
          screen_viewers := insert ws s.screen_viewers } := by
  simp only [register_client]

theorem handle_screen_data_state (s : ServerState) (m : ScreenDataMsg)
    (t : Nat) (sendOk : Conn → Bool) :
    (handle_screen_data s m t sendOk).state =
      { update_frame s m t with
        clients :=
          s.clients \ s.screen_viewers.filter (fun c => sendOk c = false)
        screen_providers :=
          s.screen_providers \
            s.screen_viewers.filter (fun c => sendOk c = false)
        screen_viewers :=
          s.screen_viewers \
            s.screen_viewers.filter (fun c => sendOk c = false)
        control_clients :=
          s.control_clients \
            s.screen_viewers.filter (fun c => sendOk c = false) } := by
  simp only [handle_screen_data]
  split_ifs with h
  · have hv : (update_frame s m t).screen_viewers = s.screen_viewers := rfl
    rw [hv] at h
    simp [h, update_frame]
  · rw [broadcast_state]
    rfl

theorem handle_control_event_state (s : ServerState) (kind : CtrlKind)
    (payload : String) (sendOk : Conn → Bool) :
    (handle_control_event s kind payload sendOk).state =
      { s with
        clients :=
          s.clients \ s.screen_providers.filter (fun c => sendOk c = false)
        screen_providers :=
          s.screen_providers \
            s.screen_providers.filter (fun c => sendOk c = false)
        screen_viewers :=
          s.screen_viewers \
            s.screen_providers.filter (fun c => sendOk c = false)
        control_clients :=
          s.control_clients \
            s.screen_providers.filter (fun c => sendOk c = false) } := by
  simp only [handle_control_event]
  split_ifs with h
  · have hD : s.screen_providers.filter (fun c => sendOk c = false) = ∅ := by
      simp [h]
    rw [hD]
    simp only [Finset.sdiff_empty]
  · rw [broadcast_state]

theorem register_client_viewer_state (s : ServerState) (ws : Conn) :
    (register_client s ws "viewer").state =
      { s with
        clients := insert ws s.clients
        screen_viewers := insert ws s.screen_viewers } := by
  rw [register_client_state_def, if_neg (by decide), if_neg (by decide)]

theorem register_client_provider_state (s : ServerState) (ws : Conn) :
    (register_client s ws "provider").state =
      { s with
        clients := insert ws s.clients
        screen_providers := insert ws s.screen_providers } := by
  rw [register_client_state_def, if_pos rfl]

theorem register_client_state_csd (s : ServerState) (ws : Conn) (ct : String) :
    (register_client s ws ct).state.current_screen_data =
      s.current_screen_data := by
  rw [register_client_state_def]
  split_ifs <;> rfl

theorem register_client_state_info (s : ServerState) (ws : Conn) (ct : String) :
    (register_client s ws ct).state.screen_info = s.screen_info := by
  rw [register_client_state_def]
  split_ifs <;> rfl

theorem handle_screen_data_sends (s : ServerState) (m : ScreenDataMsg)
    (t : Nat) (sendOk : Conn → Bool) :
    (handle_screen_data s m t sendOk).sends =
      (s.screen_viewers.sort (· ≤ ·)).map
        (fun c => (c, OutMsg.screenshot (mkScreenshot m t))) := by
  simp only [handle_screen_data, broadcast]
  split_ifs with h
  · have hv : (update_frame s m t).screen_viewers = s.screen_viewers := rfl
    rw [hv] at h
    simp [h]
  · rfl

theorem handle_control_event_sends (s : ServerState) (kind : CtrlKind)
    (payload : String) (sendOk : Conn → Bool) :
    (handle_control_event s kind payload sendOk).sends =
      (s.screen_providers.sort (· ≤ ·)).map
        (fun c => (c, OutMsg.control kind payload)) := by
  simp only [handle_control_event, broadcast]
  split_ifs with h
  · simp [h]
  · rfl

theorem hcm_register_state (s : ServerState) (ws : Conn) (ct : Option String)
    (t : Nat) (sendOk : Conn → Bool) :
    (handle_client_message s ws (InMsg.register ct) t sendOk).state =
      (register_client s ws (ct.getD "viewer")).state := rfl

theorem hcm_get_screenshot_state (s : ServerState) (ws : Conn) (t : Nat)
    (sendOk : Conn → Bool) :
    (handle_client_message s ws InMsg.get_screenshot t sendOk).state = s := by
  cases h : s.current_screen_data <;> simp [handle_client_message, h]

theorem insert_inter_empty {A B : Finset Conn} {c : Conn}
    (h : A ∩ B = ∅) (hc : c ∉ B) : (insert c A) ∩ B = ∅ := by
  rw [inter_eq_empty_iff] at h ⊢
  intro x hx
  rcases Finset.mem_insert.mp hx with rfl | hxA
  · exact hc
  · exact h x hxA

theorem inter_insert_empty {A B : Finset Conn} {c : Conn}
    (h : A ∩ B = ∅) (hc : c ∉ A) : A ∩ (insert c B) = ∅ := by
  rw [inter_eq_empty_iff] at h ⊢
  intro x hx hmem
  rcases Finset.mem_insert.mp hmem with rfl | hxB
  · exact hc hx
  · exact h x hx hxB

theorem sdiff_inter_empty {A B D : Finset Conn} (h : A ∩ B = ∅) :
    (A \ D) ∩ (B \ D) = ∅ := by
  rw [inter_eq_empty_iff] at h ⊢
  intro c hc hcb
  exact h c (Finset.mem_sdiff.mp hc).1 (Finset.mem_sdiff.mp hcb).1

theorem inv_sdiff (s : ServerState) (D : Finset Conn)
    (hInv : RegistryInv s) :
    RegistryInv
      { s with
        clients := s.clients \ D
        screen_providers := s.screen_providers \ D
        screen_viewers := s.screen_viewers \ D
        control_clients := s.control_clients \ D } := by
  obtain ⟨⟨h1, h2, h3⟩, g1, g2, g3⟩ := hInv
  exact ⟨⟨sdiff_inter_empty h1, sdiff_inter_empty h2, sdiff_inter_empty h3⟩,
    Finset.sdiff_subset_sdiff g1 (Finset.Subset.refl D),
    Finset.sdiff_subset_sdiff g2 (Finset.Subset.refl D),
    Finset.sdiff_subset_sdiff g3 (Finset.Subset.refl D)⟩

theorem unregister_client_eq_sdiff (s : ServerState) (ws : Conn) :
    unregister_client s ws =
      { s with
        clients := s.clients \ {ws}
        screen_providers := s.screen_providers \ {ws}
        screen_viewers := s.screen_viewers \ {ws}
        control_clients := s.control_clients \ {ws} } := by
  simp [unregister_client, Finset.erase_eq]

theorem inv_unregister (s : ServerState) (ws : Conn)
    (hInv : RegistryInv s) : RegistryInv (unregister_client s ws) := by
  rw [unregister_client_eq_sdiff]
  exact inv_sdiff s {ws} hInv

theorem inv_register (s : ServerState) (ws : Conn) (ct : String)
    (hInv : RegistryInv s) (hok : registerOkFor s ws ct) :
    RegistryInv (register_client s ws ct).state := by
  obtain ⟨⟨h1, h2, h3⟩, g1, g2, g3⟩ := hInv
  rw [register_client_state_def]
  unfold registerOkFor at hok
  by_cases hp : ct = "provider"
  · rw [if_pos hp]
    rw [if_pos hp] at hok
    exact ⟨⟨insert_inter_empty h1 hok.1, insert_inter_empty h2 hok.2, h3⟩,
      Finset.insert_subset_insert ws g1,
      g2.trans (Finset.subset_insert ws s.clients),
      g3.trans (Finset.subset_insert ws s.clients)⟩
  · rw [if_neg hp]
    rw [if_neg hp] at hok
    by_cases hc : ct = "controller"
    · rw [if_pos hc]
      rw [if_pos hc] at hok
      exact ⟨⟨h1, inter_insert_empty h2 hok.1, inter_insert_empty h3 hok.2⟩,
        g1.trans (Finset.subset_insert ws s.clients),
        g2.trans (Finset.subset_insert ws s.clients),
        Finset.insert_subset_insert ws g3⟩
    · rw [if_neg hc]
      rw [if_neg hc] at hok
      exact ⟨⟨inter_insert_empty h1 hok.1, h2, insert_inter_empty h3 hok.2⟩,
        g1.trans (Finset.subset_insert ws s.clients),
        Finset.insert_subset_insert ws g2,
        g3.trans (Finset.subset_insert ws s.clients)⟩

/-! Claims. -/

/-- C1 counterexample: the claim as stated is false.  Starting from the
fresh server, `register_client` for connection `0` with role `provider`
followed by a second `register_client` for the same connection with role
`viewer` leaves connection `0` a member of both the provider set and the
viewer set, violating the at-most-one-role invariant. -/
theorem register_twice_breaks_role_disjointness :
    (0 : Conn) ∈
        (applyOps initState
          [Op.register 0 "provider", Op.register 0 "viewer"]).screen_providers ∧
      (0 : Conn) ∈
        (applyOps initState
          [Op.register 0 "provider", Op.register 0 "viewer"]).screen_viewers ∧
      ¬ RegistryInv
        (applyOps initState
          [Op.register 0 "provider", Op.register 0 "viewer"]) := by
  decide

/-- C1 (amended): every `register_client` / `unregister_client` /
message-dispatch operation preserves the registry invariant (each
connection in at most one of the three role sets, every role-set member
in the all-connections set), provided a `register` for an already
role-assigned connection does not select a different role set; without
that proviso the invariant fails (see the counterexample). -/
theorem registry_invariant_preserved (s : ServerState) (op : Op)
    (hInv : RegistryInv s) (hok : OpOk s op) :
    RegistryInv (applyOp s op) := by
  cases op with
  | register ws ct => exact inv_register s ws ct hInv hok
  | unregister ws => exact inv_unregister s ws hInv
  | dispatch sender m t sendOk =>
    cases m with
    | register ct =>
      show RegistryInv (handle_client_message s sender (InMsg.register ct) t sendOk).state
      rw [hcm_register_state]
      exact inv_register s sender (ct.getD "viewer") hInv hok
    | screen_data sd =>
      show RegistryInv (handle_screen_data s sd t sendOk).state
      rw [handle_screen_data_state]
      exact inv_sdiff s (s.screen_viewers.filter (fun c => sendOk c = false)) hInv
    | control kind payload =>
      show RegistryInv (handle_control_event s kind payload sendOk).state
      rw [handle_control_event_state]
      exact inv_sdiff s (s.screen_providers.filter (fun c => sendOk c = false)) hInv
    | get_screenshot =>
      show RegistryInv (handle_client_message s sender InMsg.get_screenshot t sendOk).state
      rw [hcm_get_screenshot_state]
      exact hInv
    | ping => exact hInv
    | unknown => exact hInv

/-- C1 witness: the amended preservation theorem applied at the fresh
server and a concrete registration. -/
theorem registry_invariant_preserved_witness :
    RegistryInv (applyOp initState (Op.register 0 "provider")) :=
  registry_invariant_preserved initState (Op.register 0 "provider")
    (by decide) (by decide)

/-- C2 counterexample: the claim as stated is false.  `handle_client`
registers every freshly accepted connection with the default role
`viewer`, so between accept and the `register` message the connection
already occupies the viewer role set, and after the connection registers
as `provider` the viewer count is one higher than before the accept
(`1`, not the prior `0`), even though `screen_providers` is `1`. -/
theorem accept_then_register_provider_counterexample :
    (0 : Conn) ∈ (accept_client initState 0).state.screen_viewers ∧
      (handle_client_message (accept_client initState 0).state 0
          (InMsg.register (some "provider")) 0
          (fun _ => true)).state.screen_providers.card = 1 ∧
      (handle_client_message (accept_client initState 0).state 0
          (InMsg.register (some "provider")) 0
          (fun _ => true)).state.screen_viewers.card = 1 ∧
      initState.screen_viewers.card = 0 := by
  decide

/-- C2 (amended): accepting a fresh connection and then dispatching its
`register` message with `client_type` `provider` makes the provider
count grow by one (so `screen_providers == 1` on a fresh server) and
leaves the controller set unchanged, but the viewer count also grows by
one: the accept step registers the connection under the default role
`viewer` and the later provider registration does not remove it from the
viewer set. -/
theorem accept_then_register_provider_amended (s : ServerState) (c : Conn)
    (t : Nat) (sendOk : Conn → Bool)
    (hp : c ∉ s.screen_providers) (hv : c ∉ s.screen_viewers)
    (r : DispatchResult)
    (hr : r = handle_client_message (accept_client s c).state c
      (InMsg.register (some "provider")) t sendOk) :
    r.state.screen_providers.card = s.screen_providers.card + 1 ∧
      r.state.screen_viewers.card = s.screen_viewers.card + 1 ∧
      r.state.control_clients = s.control_clients ∧
      c ∈ r.state.screen_providers ∧ c ∈ r.state.screen_viewers := by
  subst hr
  rw [hcm_register_state, Option.getD_some]
  show (register_client (register_client s c "viewer").state c "provider").state.screen_providers.card = _ ∧ _
  rw [register_client_viewer_state, register_client_provider_state]
  exact ⟨Finset.card_insert_of_not_mem hp, Finset.card_insert_of_not_mem hv,
    rfl, Finset.mem_insert_self c _, Finset.mem_insert_self c _⟩

/-- C2 witness: the amended theorem applied on the fresh server with
connection `0`. -/
theorem accept_then_register_provider_amended_witness :
    (handle_client_message (accept_client initState 0).state 0
          (InMsg.register (some "provider")) 0
          (fun _ => true)).state.screen_providers.card =
        initState.screen_providers.card + 1 ∧
      (handle_client_message (accept_client initState 0).state 0
          (InMsg.register (some "provider")) 0
          (fun _ => true)).state.screen_viewers.card =
        initState.screen_viewers.card + 1 ∧
      (handle_client_message (accept_client initState 0).state 0
          (InMsg.register (some "provider")) 0
          (fun _ => true)).state.control_clients =
        initState.control_clients ∧
      (0 : Conn) ∈
        (handle_client_message (accept_client initState 0).state 0
          (InMsg.register (some "provider")) 0
          (fun _ => true)).state.screen_providers ∧
      (0 : Conn) ∈
        (handle_client_message (accept_client initState 0).state 0
          (InMsg.register (some "provider")) 0
          (fun _ => true)).state.screen_viewers :=
  accept_then_register_provider_amended initState 0 0 (fun _ => true)
    (by decide) (by decide) _ rfl

/-- C3: a broadcast over the viewer role set with `N` targets of which
`M < N` fail to send makes exactly `M` `unregister_client` calls (one
per failed target, none for a successful one), attempts `N` sends of
which `N - M` succeed, shrinks the viewer set by exactly `M`, and every
remaining viewer received the payload. -/
theorem broadcast_partial_failure_accounting (s : ServerState)
    (payload : OutMsg) (sendOk : Conn → Bool) (N M : Nat)
    (hN : N = s.screen_viewers.card)
    (hM : M = (s.screen_viewers.filter (fun c => sendOk c = false)).card)
    (hMN : M < N) (r : DispatchResult)
    (hr : r = broadcast s s.screen_viewers payload sendOk) :
    r.unregs.length = M ∧
      (r.sends.filter (fun q => sendOk q.1)).length = N - M ∧
      r.sends.length = N ∧
      (∀ c ∈ s.screen_viewers, sendOk c = false → r.unregs.count c = 1) ∧
      (∀ c, sendOk c = true → r.unregs.count c = 0) ∧
      (∀ c, c ∉ s.screen_viewers → r.unregs.count c = 0) ∧
      r.state.screen_viewers.card = N - M ∧
      (∀ c ∈ r.state.screen_viewers,
        (c, payload) ∈ r.sends.filter (fun q => sendOk q.1)) := by
  subst hr hN hM
  refine ⟨?_, ?_, ?_, ?_, ?_, ?_, ?_, ?_⟩
  · show ((s.screen_viewers.filter (fun c => sendOk c = false)).sort (· ≤ ·)).length = _
    exact Finset.length_sort _
  · show (((s.screen_viewers.sort (· ≤ ·)).map (fun c => (c, payload))).filter
      (fun q => sendOk q.1)).length = _
    rw [List.filter_map, List.length_map]
    have hnd : ((s.screen_viewers.sort (· ≤ ·)).filter
        ((fun q : Conn × OutMsg => sendOk q.1) ∘ (fun c => (c, payload)))).Nodup :=
      (Finset.sort_nodup _ _).filter _
    rw [← List.toFinset_card_of_nodup hnd, List.toFinset_filter,
      Finset.sort_toFinset]
    have hsplit := Finset.filter_card_add_filter_neg_card_eq_card
      (s := s.screen_viewers) (p := fun c => sendOk c = true)
    simp only [Bool.not_eq_true] at hsplit
    simp only [Function.comp]
    omega
  · show ((s.screen_viewers.sort (· ≤ ·)).map (fun c => (c, payload))).length = _
    rw [List.length_map]
    exact Finset.length_sort _
  · intro c hc hfail
    refine List.count_eq_one_of_mem (Finset.sort_nodup _ _) ?_
    show c ∈ (s.screen_viewers.filter (fun x => sendOk x = false)).sort (· ≤ ·)
    rw [Finset.mem_sort]
    exact Finset.mem_filter.mpr ⟨hc, hfail⟩
  · intro c hok
    refine List.count_eq_zero_of_not_mem ?_
    show c ∉ (s.screen_viewers.filter (fun x => sendOk x = false)).sort (· ≤ ·)
    rw [Finset.mem_sort]
    intro hmem
    have := (Finset.mem_filter.mp hmem).2
    rw [hok] at this
    simp at this
  · intro c hnot
    refine List.count_eq_zero_of_not_mem ?_
    show c ∉ (s.screen_viewers.filter (fun x => sendOk x = false)).sort (· ≤ ·)
    rw [Finset.mem_sort]
    intro hmem
    exact hnot (Finset.mem_filter.mp hmem).1
  · rw [broadcast_state]
    show (s.screen_viewers \ _).card = _
    rw [Finset.card_sdiff (Finset.filter_subset _ _)]
  · intro c hc
    rw [broadcast_state] at hc
    have hc' : c ∈ s.screen_viewers ∧
        c ∉ s.screen_viewers.filter (fun x => sendOk x = false) :=
      Finset.mem_sdiff.mp hc
    have hok : sendOk c = true := by
      rcases Bool.eq_false_or_eq_true (sendOk c) with ht | hf
      · exact ht
      · exact absurd (Finset.mem_filter.mpr ⟨hc'.1, hf⟩) hc'.2
    refine List.mem_filter.mpr ⟨?_, hok⟩
    show (c, payload) ∈ (s.screen_viewers.sort (· ≤ ·)).map (fun c => (c, payload))
    exact List.mem_map.mpr ⟨c, (Finset.mem_sort _).mpr hc'.1, rfl⟩

/-- C3 witness: the accounting theorem at a two-viewer state in which
the send to viewer `1` fails. -/
theorem broadcast_partial_failure_accounting_witness :
    (broadcast { initState with clients := {0, 1}, screen_viewers := {0, 1} }
        ({0, 1} : Finset Conn) OutMsg.pong (fun c => c == 0)).unregs.length = 1 ∧
      ((broadcast { initState with clients := {0, 1}, screen_viewers := {0, 1} }
          ({0, 1} : Finset Conn) OutMsg.pong
          (fun c => c == 0)).state).screen_viewers.card = 2 - 1 := by
  have h := broadcast_partial_failure_accounting
    { initState with clients := {0, 1}, screen_viewers := {0, 1} }
    OutMsg.pong (fun c => c == 0) 2 1 (by decide) (by decide) (by decide)
    _ rfl
  exact ⟨h.1, h.2.2.2.2.2.2.1⟩

/-- C4: routing is role-correct.  Dispatching a `screen_data` message
attempts the screenshot payload to exactly the members of the viewer
set, and with the role sets pairwise disjoint (each connection holding
exactly one role) no provider or controller receives it; dispatching a
mouse or keyboard message sends the raw payload to exactly the members
of the provider set, and no viewer or controller receives it. -/
theorem routing_role_correct (s : ServerState) (sender : Conn)
    (sd : ScreenDataMsg) (kind : CtrlKind) (payload : String) (t : Nat)
    (sendOk : Conn → Bool) (hdisj : RoleDisjoint s) :
    (((handle_client_message s sender (InMsg.screen_data sd) t
        sendOk).sends.map Prod.fst).toFinset = s.screen_viewers) ∧
      (∀ q ∈ (handle_client_message s sender (InMsg.screen_data sd) t
          sendOk).sends, q.2 = OutMsg.screenshot (mkScreenshot sd t)) ∧
      (∀ c ∈ s.screen_providers,
        c ∉ ((handle_client_message s sender (InMsg.screen_data sd) t
          sendOk).sends.map Prod.fst)) ∧
      (∀ c ∈ s.control_clients,
        c ∉ ((handle_client_message s sender (InMsg.screen_data sd) t
          sendOk).sends.map Prod.fst)) ∧
      (((handle_client_message s sender (InMsg.control kind payload) t
        sendOk).sends.map Prod.fst).toFinset = s.screen_providers) ∧
      (∀ q ∈ (handle_client_message s sender (InMsg.control kind payload) t
          sendOk).sends, q.2 = OutMsg.control kind payload) ∧
      (∀ c ∈ s.screen_viewers,
        c ∉ ((handle_client_message s sender (InMsg.control kind payload) t
          sendOk).sends.map Prod.fst)) ∧
      (∀ c ∈ s.control_clients,
        c ∉ ((handle_client_message s sender (InMsg.control kind payload) t
          sendOk).sends.map Prod.fst)) := by
  obtain ⟨h1, h2, h3⟩ := hdisj
  rw [inter_eq_empty_iff] at h1 h2 h3
  have hv : (handle_client_message s sender (InMsg.screen_data sd) t
      sendOk).sends = (s.screen_viewers.sort (· ≤ ·)).map
        (fun c => (c, OutMsg.screenshot (mkScreenshot sd t))) :=
    handle_screen_data_sends s sd t sendOk
  have hp : (handle_client_message s sender (InMsg.control kind payload) t
      sendOk).sends = (s.screen_providers.sort (· ≤ ·)).map
        (fun c => (c, OutMsg.control kind payload)) :=
    handle_control_event_sends s kind payload sendOk
  have hvf : ((handle_client_message s sender (InMsg.screen_data sd) t
      sendOk).sends.map Prod.fst) = s.screen_viewers.sort (· ≤ ·) := by
    rw [hv, List.map_map]
    exact List.map_id' _
  have hpf : ((handle_client_message s sender (InMsg.control kind payload) t
      sendOk).sends.map Prod.fst) = s.screen_providers.sort (· ≤ ·) := by
    rw [hp, List.map_map]
    exact List.map_id' _
  refine ⟨?_, ?_, ?_, ?_, ?_, ?_, ?_, ?_⟩
  · rw [hvf, Finset.sort_toFinset]
  · intro q hq
    rw [hv] at hq
    obtain ⟨c, _, rfl⟩ := List.mem_map.mp hq
    rfl
  · intro c hc
    rw [hvf, Finset.mem_sort]
    exact h1 c hc
  · intro c hc hmem
    rw [hvf, Finset.mem_sort] at hmem
    exact h3 c hmem hc
  · rw [hpf, Finset.sort_toFinset]
  · intro q hq
    rw [hp] at hq
    obtain ⟨c, _, rfl⟩ := List.mem_map.mp hq
    rfl
  · intro c hc hmem
    rw [hpf, Finset.mem_sort] at hmem
    exact h1 c hmem hc
  · intro c hc hmem
    rw [hpf, Finset.mem_sort] at hmem
    exact h2 c hmem hc

/-- C4 witness: routing at a state with one viewer, one provider and one
controller holding exactly one role each. -/
theorem routing_role_correct_witness :
    ((handle_client_message
        { initState with
          clients := {0, 1, 2}, screen_viewers := {0},
          screen_providers := {1}, control_clients := {2} } 1
        (InMsg.screen_data ⟨none, none, none, none, none⟩) 0
        (fun _ => true)).sends.map Prod.fst).toFinset =
      ({0} : Finset Conn) ∧
    ((handle_client_message
        { initState with
          clients := {0, 1, 2}, screen_viewers := {0},
          screen_providers := {1}, control_clients := {2} } 2
        (InMsg.control CtrlKind.mouse "click") 0
        (fun _ => true)).sends.map Prod.fst).toFinset =
      ({1} : Finset Conn) := by
  have h := routing_role_correct
    { initState with
      clients := {0, 1, 2}, screen_viewers := {0},
      screen_providers := {1}, control_clients := {2} } 1
    ⟨none, none, none, none, none⟩ CtrlKind.mouse "click" 0
    (fun _ => true) (by decide)
  have h2 := routing_role_correct
    { initState with
      clients := {0, 1, 2}, screen_viewers := {0},
      screen_providers := {1}, control_clients := {2} } 2
    ⟨none, none, none, none, none⟩ CtrlKind.mouse "click" 0
    (fun _ => true) (by decide)
  exact ⟨h.1, h2.2.2.2.2.1⟩

/-- C5: `has_screen_data` in the status snapshot is monotone: once the
cached frame record is non-null, every server operation (registration,
unregistration, any message dispatch) leaves it non-null — each either
keeps it or replaces it with another non-null record. -/
theorem has_screen_data_monotone (s : ServerState) (op : Op)
    (h : (get_server_status s).has_screen_data = true) :
    (get_server_status (applyOp s op)).has_screen_data = true := by
  have hs : s.current_screen_data.isSome = true := h
  cases op with
  | register ws ct =>
    show ((register_client s ws ct).state.current_screen_data).isSome = true
    rw [register_client_state_csd]
    exact hs
  | unregister ws => exact hs
  | dispatch sender m t sendOk =>
    cases m with
    | register ct =>
      show ((handle_client_message s sender (InMsg.register ct) t
        sendOk).state.current_screen_data).isSome = true
      rw [hcm_register_state, register_client_state_csd]
      exact hs
    | screen_data sd =>
      show ((handle_screen_data s sd t sendOk).state.current_screen_data).isSome = true
      rw [handle_screen_data_state]
      rfl
    | control kind payload =>
      show ((handle_control_event s kind payload
        sendOk).state.current_screen_data).isSome = true
      rw [handle_control_event_state]
      exact hs
    | get_screenshot =>
      show ((handle_client_message s sender InMsg.get_screenshot t
        sendOk).state.current_screen_data).isSome = true
      rw [hcm_get_screenshot_state]
      exact hs
    | ping => exact hs
    | unknown => exact hs

/-- C5 witness: monotonicity applied after a first frame, across a
`ping` dispatch. -/
theorem has_screen_data_monotone_witness :
    (get_server_status
      (applyOp (update_frame initState ⟨none, none, none, none, none⟩ 0)
        (Op.dispatch 0 InMsg.ping 0 (fun _ => true)))).has_screen_data =
      true :=
  has_screen_data_monotone
    (update_frame initState ⟨none, none, none, none, none⟩ 0)
    (Op.dispatch 0 InMsg.ping 0 (fun _ => true)) rfl

/-- C6: a `get_screenshot` request while the cached frame is null is
answered to the sender with the structured error record and never with a
screenshot record; once a frame exists the same request is answered with
the cached screenshot record; in both cases the registry state is
untouched (the connection is not dropped) and no unregistration
happens. -/
theorem get_screenshot_no_data_error_reply (s : ServerState) (ws : Conn)
    (t : Nat) (sendOk : Conn → Bool) (r : DispatchResult)
    (hr : r = handle_client_message s ws InMsg.get_screenshot t sendOk) :
    (s.current_screen_data = none →
      r.sends = [(ws, OutMsg.error "当前没有可用的屏幕数据")] ∧
        ∀ rec : ScreenRecord, (ws, OutMsg.screenshot rec) ∉ r.sends) ∧
      (∀ rec : ScreenRecord, s.current_screen_data = some rec →
        r.sends = [(ws, OutMsg.screenshot rec)]) ∧
      r.state = s ∧ r.unregs = [] := by
  subst hr
  cases h : s.current_screen_data with
  | none =>
    refine ⟨fun _ => ⟨?_, ?_⟩, fun rec hrec => ?_, ?_, ?_⟩
    · simp [handle_client_message, h]
    · intro rec
      simp [handle_client_message, h]
    · simp at hrec
    · rw [hcm_get_screenshot_state]
    · simp [handle_client_message, h]
  | some rec0 =>
    refine ⟨fun hn => ?_, fun rec hrec => ?_, ?_, ?_⟩
    · simp at hn
    · injection hrec with he
      subst he
      simp [handle_client_message, h]
    · rw [hcm_get_screenshot_state]
    · simp [handle_client_message, h]

/-- C6 witness: on the fresh server (no frame ever accepted) the reply
is the error record, the state is untouched. -/
theorem get_screenshot_no_data_error_reply_witness :
    (handle_client_message initState 0 InMsg.get_screenshot 0
        (fun _ => true)).sends =
      [(0, OutMsg.error "当前没有可用的屏幕数据")] ∧
      (handle_client_message initState 0 InMsg.get_screenshot 0
        (fun _ => true)).state = initState := by
  have h := get_screenshot_no_data_error_reply initState 0 0 (fun _ => true)
    _ rfl
  exact ⟨(h.1 rfl).1, h.2.2.1⟩

/-- C7: frame update is unconditional last-write-wins: updating the
frame cache with `r1` then `r2` yields exactly the state of updating
with `r2` alone; the snapshot then reports the dimensions declared by
`r2` (with missing or zero width/height stored as given, no validation)
and `get_screenshot` answers with the record built from `r2`;
`handle_screen_data` stores the new record unconditionally. -/
theorem update_frame_last_write_wins (s : ServerState)
    (m1 m2 : ScreenDataMsg) (t1 t2 : Nat) (ws : Conn) (t : Nat)
    (sendOk : Conn → Bool) :
    update_frame (update_frame s m1 t1) m2 t2 = update_frame s m2 t2 ∧
      (get_server_status (update_frame (update_frame s m1 t1) m2
        t2)).screen_info =
        ⟨m2.width.getD 0, m2.height.getD 0, m2.original_width.getD 0,
          m2.original_height.getD 0⟩ ∧
      (get_server_status (update_frame (update_frame s m1 t1) m2
        t2)).has_screen_data = true ∧
      (handle_client_message (update_frame (update_frame s m1 t1) m2 t2) ws
          InMsg.get_screenshot t sendOk).sends =
        [(ws, OutMsg.screenshot (mkScreenshot m2 t2))] ∧
      (handle_screen_data s m2 t2 sendOk).state.current_screen_data =
        some (mkScreenshot m2 t2) := by
  refine ⟨rfl, rfl, rfl, rfl, ?_⟩
  rw [handle_screen_data_state]
  rfl

/-- C8: `unregister_client` is idempotent and total: the second of two
consecutive calls for the same connection is a no-op (same state, so
also the same status snapshot), and a call for a connection in no set at
all leaves the state exactly as it was. -/
theorem unregister_client_idempotent_total (s : ServerState) (ws : Conn) :
    unregister_client (unregister_client s ws) ws = unregister_client s ws ∧
      (ws ∉ s.clients → ws ∉ s.screen_providers → ws ∉ s.screen_viewers →
        ws ∉ s.control_clients → unregister_client s ws = s) ∧
      get_server_status (unregister_client (unregister_client s ws) ws) =
        get_server_status (unregister_client s ws) := by
  have hidem : unregister_client (unregister_client s ws) ws =
      unregister_client s ws := by
    simp [unregister_client, Finset.erase_idem]
  refine ⟨hidem, ?_, by rw [hidem]⟩
  intro h1 h2 h3 h4
  simp [unregister_client, Finset.erase_eq_of_not_mem, h1, h2, h3, h4]

/-- C8 witness: idempotence and the never-registered no-op at the fresh
server. -/
theorem unregister_client_idempotent_total_witness :
    unregister_client (unregister_client initState 0) 0 =
        unregister_client initState 0 ∧
      unregister_client initState 0 = initState := by
  have h := unregister_client_idempotent_total initState 0
  exact ⟨h.1, h.2.1 (by decide) (by decide) (by decide) (by decide)⟩

/-- C10: a `register` whose `client_type` is any string other than
`provider` or `controller` (for example `admin`) puts the connection in
the viewer set (providers and controllers unchanged), yet the
`register_ack` reply echoes the declared `client_type` string verbatim
rather than the role actually assigned. -/
theorem register_unknown_type_viewer_ack_echo (s : ServerState)
    (ws : Conn) (ct : String) (t : Nat) (sendOk : Conn → Bool)
    (hp : ct ≠ "provider") (hc : ct ≠ "controller") (r : DispatchResult)
    (hr : r = handle_client_message s ws (InMsg.register (some ct)) t
      sendOk) :
    ws ∈ r.state.screen_viewers ∧
      r.state.screen_providers = s.screen_providers ∧
      r.state.control_clients = s.control_clients ∧
      r.sends.getLast? = some (ws, OutMsg.register_ack ct s.screen_info) := by
  subst hr
  have hst : (handle_client_message s ws (InMsg.register (some ct)) t
      sendOk).state = (register_client s ws ct).state := by
    rw [hcm_register_state, Option.getD_some]
  have hsd : (register_client s ws ct).state =
      { s with
        clients := insert ws s.clients
        screen_viewers := insert ws s.screen_viewers } := by
    rw [register_client_state_def, if_neg hp, if_neg hc]
  refine ⟨?_, ?_, ?_, ?_⟩
  · rw [hst, hsd]
    exact Finset.mem_insert_self ws _
  · rw [hst, hsd]
  · rw [hst, hsd]
  · show ((register_client s ws ct).sends ++
        [(ws, OutMsg.register_ack ct
          (register_client s ws ct).state.screen_info)]).getLast? = _
    rw [List.getLast?_concat, register_client_state_info]

/-- C10 witness: registering with `client_type` `admin` lands in the
viewer set while the acknowledgement echoes `admin`. -/
theorem register_unknown_type_viewer_ack_echo_witness :
    (0 : Conn) ∈ (handle_client_message initState 0
        (InMsg.register (some "admin")) 0
        (fun _ => true)).state.screen_viewers ∧
      (handle_client_message initState 0 (InMsg.register (some "admin")) 0
        (fun _ => true)).sends.getLast? =
        some (0, OutMsg.register_ack "admin" initState.screen_info) := by
  have h := register_unknown_type_viewer_ack_echo initState 0 "admin" 0
    (fun _ => true) (by decide) (by decide) _ rfl
  exact ⟨h.1, h.2.2.2⟩
